import Mathlib

attribute [local semireducible] Rat.add Rat.mul Rat.inv Rat.sub Rat.ofScientific

deriving instance DecidableEq for Except

/-!
Shallow embedding of the link-extraction subsystem of the budget repository
(`src/database.js`, link-extractor part: `fetchUrl`, `extractOpenGraph`,
`extractJsonLd`, `extractFromSchema`, `extractBasicMeta`, `extractProductInfo`).

Modelling conventions:
- JavaScript values occurring in parsed JSON-LD are modelled by `JsVal`
  (mutually inductive with spine types `JsArr`, `JsObj` so that decidable
  equality can be derived).  `JsVal.undefined` models JavaScript `undefined`
  (absent property); `JSON.parse` itself never produces it.
- JavaScript numbers are modelled as exact rationals plus `NaN` and the two
  infinities (`JsNum`).  None of the verified properties depend on IEEE-754
  rounding, only on which rational a decimal string denotes.
- The cheerio document handle is modelled by `Doc`, which records exactly the
  lookups the extractor performs: the four `og:*` meta contents, the raw
  parse results of the `application/ld+json` script blocks (in document
  order, `none` = `JSON.parse` throws on that block), the `meta[name=title]`
  and `meta[name=description]` contents and the `<title>` element text
  (cheerio's `.text()` returns `""` when no element matches).
- Exceptions thrown inside the JSON-LD `try` block are modelled with
  `Except Unit`; the orchestrator's failure is an `Except String` carrying
  the thrown `Error` message.
-/

mutual

inductive JsVal where
  | null
  | undefined
  | bool (b : Bool)
  | num (q : ℚ)
  | str (s : String)
  | arr (xs : JsArr)
  | obj (fields : JsObj)
deriving DecidableEq, Repr

inductive JsArr where
  | nil
  | cons (hd : JsVal) (tl : JsArr)
deriving DecidableEq, Repr

inductive JsObj where
  | nil
  | cons (key : String) (val : JsVal) (tl : JsObj)
deriving DecidableEq, Repr

end

/-- JavaScript numbers: an exact rational, `NaN`, or a signed infinity. -/
inductive JsNum where
  | num (q : ℚ)
  | nan
  | inf (negative : Bool)
deriving DecidableEq, Repr

/-- Property lookup on an object's field list.  Objects produced by
`JSON.parse` have unique keys (with duplicates the last wins at parse time),
so model documents are expected to carry deduplicated field lists. -/
def JsObj.lookup : JsObj → String → Option JsVal
  | .nil, _ => none
  | .cons k v tl, key => if k = key then some v else tl.lookup key

/-- Property access `v[key]` on a non-nullish value: a missing property (and
any string-keyed property of a primitive or of an array, for the keys the
extractor uses) is `undefined`. -/
def getField : JsVal → String → JsVal
  | .obj fs, k => (fs.lookup k).getD .undefined
  | _, _ => .undefined

/-- Property access that throws a `TypeError` (modelled as `Except.error ()`)
when the receiver is `null` or `undefined`, as JavaScript does. -/
def getFieldE : JsVal → String → Except Unit JsVal
  | .null, _ => .error ()
  | .undefined, _ => .error ()
  | v, k => .ok (getField v k)

/-- JavaScript truthiness of a value.  (`NaN` does not occur as a `JsVal`:
`JSON.parse` cannot produce it.) -/
def jsTruthy : JsVal → Bool
  | .null => false
  | .undefined => false
  | .bool b => b
  | .num q => decide (q ≠ 0)
  | .str s => decide (s ≠ "")
  | .arr _ => true
  | .obj _ => true

/-- JavaScript truthiness of a number: `0` and `NaN` are falsy. -/
def JsNum.truthy : JsNum → Bool
  | .num q => decide (q ≠ 0)
  | .nan => false
  | .inf _ => true

def JsNum.isNaN : JsNum → Bool
  | .nan => true
  | _ => false

/-- JavaScript whitespace (the characters `parseFloat`, `String.trim` and the
regex class `\s` treat as whitespace; the uncommon Unicode space characters
beyond NBSP and BOM are not modelled). -/
def jsWhitespace (c : Char) : Bool :=
  c = ' ' || c = '\t' || c = '\n' || c = '\r' ||
  c = Char.ofNat 11 || c = Char.ofNat 12 || c = Char.ofNat 0xA0 || c = Char.ofNat 0xFEFF

def digitsToNat (ds : List Char) : Nat :=
  ds.foldl (fun a c => a * 10 + (c.toNat - 48)) 0

/-- Exponent part of a decimal literal: `e`/`E` followed by an optional sign
and digits.  When no digit follows, the longest valid literal prefix has no
exponent, so the base value stands. -/
def applyExponent (base : ℚ) (t : List Char) : ℚ :=
  let signAndRest : Int × List Char :=
    match t with
    | '+' :: r => (1, r)
    | '-' :: r => (-1, r)
    | _ => (1, t)
  let ds := signAndRest.2.takeWhile Char.isDigit
  if ds.isEmpty then base
  else if signAndRest.1 ≥ 0 then base * (10 ^ digitsToNat ds : ℚ)
  else base / (10 ^ digitsToNat ds : ℚ)

/-- Unsigned decimal literal prefix: `digits [. digits] [exponent]` or
`. digits [exponent]`; `none` when not even one digit is present. -/
def parseUnsignedDecimal (cs : List Char) : Option ℚ :=
  let intPart := cs.takeWhile Char.isDigit
  let rest1 := cs.dropWhile Char.isDigit
  let fracAndRest : List Char × List Char :=
    match rest1 with
    | '.' :: t => (t.takeWhile Char.isDigit, t.dropWhile Char.isDigit)
    | _ => ([], rest1)
  let fracPart := fracAndRest.1
  let rest2 := fracAndRest.2
  if intPart.isEmpty && fracPart.isEmpty then none
  else
    let base : ℚ := (digitsToNat intPart : ℚ) +
      (digitsToNat fracPart : ℚ) / (10 ^ fracPart.length : ℚ)
    some (match rest2 with
      | 'e' :: t => applyExponent base t
      | 'E' :: t => applyExponent base t
      | _ => base)

/-- ECMAScript `parseFloat` on a string: skip leading whitespace, read an
optional sign, then the longest prefix that is `Infinity` or a decimal
literal; `NaN` when no such prefix exists. -/
def parseFloat (s : String) : JsNum :=
  let cs := s.data.dropWhile jsWhitespace
  let signAndRest : Bool × List Char :=
    match cs with
    | '-' :: t => (true, t)
    | '+' :: t => (false, t)
    | _ => (false, cs)
  let neg := signAndRest.1
  let cs1 := signAndRest.2
  if cs1.take 8 = "Infinity".data then .inf neg
  else
    match parseUnsignedDecimal cs1 with
    | some q => .num (if neg then -q else q)
    | none => .nan

/-- ECMAScript `parseFloat` applied to an arbitrary value: the value is first
converted to a string.  A number round-trips through its string form; an
array converts via `join(",")`, so its parse equals the parse of its first
element's string (`""`, hence `NaN`, for an empty array, and `null` and
`undefined` elements also join as `""`); booleans, `null`, `undefined` and
plain objects convert to strings with no leading decimal literal. -/
def parseFloatVal : JsVal → JsNum
  | .num q => .num q
  | .str s => parseFloat s
  | .arr .nil => .nan
  | .arr (.cons h _) => parseFloatVal h
  | .null => .nan
  | .undefined => .nan
  | .bool _ => .nan
  | .obj _ => .nan

/-- JavaScript `String.prototype.trim`. -/
def jsTrim (s : String) : String :=
  ⟨((s.data.dropWhile jsWhitespace).reverse.dropWhile jsWhitespace).reverse⟩

/-- Character class `[\d,.\s]` of the price regex in `extractOpenGraph`. -/
def numRunChar (c : Char) : Bool :=
  c.isDigit || c = ',' || c = '.' || jsWhitespace c

def matchNumRunAux : List Char → Option String
  | [] => none
  | c :: t => if numRunChar c then some ⟨(c :: t).takeWhile numRunChar⟩ else matchNumRunAux t

/-- The JavaScript expression `s.match(/[\d,.\s]+/)`: the first maximal run of
digits, commas, dots and whitespace, or `null` when there is none. -/
def matchNumRun (s : String) : Option String :=
  matchNumRunAux s.data

/-- The JavaScript expression `s.replace(/[,\s]/g, ".")`: every comma and
whitespace character becomes a dot. -/
def replaceCommaSpaceWithDot (s : String) : String :=
  ⟨s.data.map (fun c => if c = ',' || jsWhitespace c then '.' else c)⟩

/-- Truthiness of an `attr("content")`-style lookup result: `undefined`
(`none`) and the empty string are falsy. -/
def truthyStrOpt : Option String → Bool
  | some s => decide (s ≠ "")
  | none => false

/-- The record a strategy builds (`{}` in the source).  `none` = key absent;
`some v` = key present with value `v` (which may itself be `undefined` or
falsy, exactly as in JavaScript). -/
structure ExtractionResult where
  title : Option JsVal := none
  price : Option JsNum := none
  description : Option JsVal := none
  image : Option JsVal := none
deriving DecidableEq, Repr

/-- The check `Object.keys(data).length > 0`. -/
def hasAnyKey (r : ExtractionResult) : Bool :=
  r.title.isSome || r.price.isSome || r.description.isSome || r.image.isSome

/-- The cheerio document handle, recording exactly the lookups the extractor
performs.  `none` models a selector with no match (cheerio `attr` returns
`undefined`); `titleText` models `$("title").text()`, which is `""` when the
document has no `<title>` element. -/
structure Doc where
  ogTitle : Option String := none
  ogPrice : Option String := none
  ogDescription : Option String := none
  ogImage : Option String := none
  jsonLdBlocks : List (Option JsVal) := []
  metaTitle : Option String := none
  titleText : String := ""
  metaDescription : Option String := none
deriving DecidableEq, Repr

/-- `extractOpenGraph($)` from `src/database.js`: read the four `og:*` meta
contents; a truthy title/description/image is stored trimmed; a truthy price
string is matched against `/[\d,.\s]+/` and, when the match succeeds, the run
has every comma and whitespace replaced by `.` and is given to `parseFloat`;
the record is returned when it has at least one key, else `null`. -/
def extractOpenGraph (d : Doc) : Option ExtractionResult :=
  let r0 : ExtractionResult := {}
  let r1 := if truthyStrOpt d.ogTitle then
      { r0 with title := some (.str (jsTrim (d.ogTitle.getD ""))) } else r0
  let r2 := if truthyStrOpt d.ogPrice then
      match matchNumRun (d.ogPrice.getD "") with
      | some m => { r1 with price := some (parseFloat (replaceCommaSpaceWithDot m)) }
      | none => r1
    else r1
  let r3 := if truthyStrOpt d.ogDescription then
      { r2 with description := some (.str (jsTrim (d.ogDescription.getD ""))) } else r2
  let r4 := if truthyStrOpt d.ogImage then
      { r3 with image := some (.str (jsTrim (d.ogImage.getD ""))) } else r3
  if hasAnyKey r4 then some r4 else none

/-- The expression `Array.isArray(x) ? x[0] : x` (an out-of-range index reads
as `undefined`). -/
def firstIfArray : JsVal → JsVal
  | .arr .nil => .undefined
  | .arr (.cons h _) => h
  | v => v

/-- `extractFromSchema(obj)` from `src/database.js`: map `name`, `description`
and `image` (first entry when `image` is an array) when truthy; when `offers`
is truthy, take `offers[0]` if it is an array (else `offers` itself) and, when
that offer's `price` is truthy, store `parseFloat` of it.  Reading `price` off
a `null`/`undefined` offer throws (`Except.error`), to be caught by
`extractJsonLd`'s surrounding `try`. -/
def extractFromSchema (o : JsVal) : Except Unit (Option ExtractionResult) := do
  let r0 : ExtractionResult := {}
  let name ← getFieldE o "name"
  let r1 := if jsTruthy name then { r0 with title := some name } else r0
  let desc ← getFieldE o "description"
  let r2 := if jsTruthy desc then { r1 with description := some desc } else r1
  let image ← getFieldE o "image"
  let r3 := if jsTruthy image then { r2 with image := some (firstIfArray image) } else r2
  let offers ← getFieldE o "offers"
  let r4 ←
    if jsTruthy offers then do
      let offer := firstIfArray offers
      let p ← getFieldE offer "price"
      pure (if jsTruthy p then { r3 with price := some (parseFloatVal p) } else r3)
    else pure r3
  pure (if hasAnyKey r4 then some r4 else none)

/-- The `for` loop of `extractJsonLd`: each block's text is `JSON.parse`d
(`none` = the parse throws); a block whose `@type` is `Product` or `Offer` is
handed to `extractFromSchema` and its result returned; otherwise a block with
a truthy `offers.price` yields the literal `{title: json.name, price:
parseFloat(json.offers.price), description: json.description}` (all three
keys present, possibly with `undefined` values, and no `image` key); else the
next block is tried.  Property access on a parsed `null` throws. -/
def jsonLdLoop : List (Option JsVal) → Except Unit (Option ExtractionResult)
  | [] => .ok none
  | none :: _ => .error ()
  | some j :: rest => do
    let t ← getFieldE j "@type"
    if t = JsVal.str "Product" || t = JsVal.str "Offer" then
      extractFromSchema j
    else
      let offers ← getFieldE j "offers"
      let nested ←
        if jsTruthy offers then do
          let p ← getFieldE offers "price"
          pure (jsTruthy p)
        else pure false
      if nested then do
        let name ← getFieldE j "name"
        let p ← getFieldE offers "price"
        let desc ← getFieldE j "description"
        pure (some { title := some name, price := some (parseFloatVal p),
                     description := some desc, image := none })
      else
        jsonLdLoop rest

/-- `extractJsonLd($)` from `src/database.js`: the whole loop runs inside one
`try`; any exception makes the strategy return `null`. -/
def extractJsonLd (blocks : List (Option JsVal)) : Option ExtractionResult :=
  match jsonLdLoop blocks with
  | .ok r => r
  | .error _ => none

/-- The JavaScript expression
`$("meta[name=title]").attr("content") || $("title").text()`. -/
def basicTitleString (d : Doc) : String :=
  if truthyStrOpt d.metaTitle then d.metaTitle.getD "" else d.titleText

/-- `extractBasicMeta($)` from `src/database.js`: the title is the
`meta[name=title]` content, falling back to the `<title>` element text; the
description is the `meta[name=description]` content; truthy values are stored
trimmed; `null` is returned when the record stays empty. -/
def extractBasicMeta (d : Doc) : Option ExtractionResult :=
  let title := basicTitleString d
  let r0 : ExtractionResult := {}
  let r1 := if title ≠ "" then { r0 with title := some (.str (jsTrim title)) } else r0
  let r2 := if truthyStrOpt d.metaDescription then
      { r1 with description := some (.str (jsTrim (d.metaDescription.getD ""))) } else r1
  if hasAnyKey r2 then some r2 else none

/-- Message of the `Error` thrown by `extractProductInfo` when the chosen
record has neither a truthy title nor a truthy price. -/
def extractionFailedMsg : String := "Could not find product information on this page."

/-- Truthiness of `data.title` (absent key reads as `undefined`, falsy). -/
def titleTruthy (r : ExtractionResult) : Bool :=
  match r.title with
  | some v => jsTruthy v
  | none => false

/-- Truthiness of `data.price`. -/
def priceTruthy (r : ExtractionResult) : Bool :=
  match r.price with
  | some p => p.truthy
  | none => false

/-- The check `isNaN(data.price)` on a present price. -/
def priceIsNaN (r : ExtractionResult) : Bool :=
  match r.price with
  | some p => p.isNaN
  | none => false

/-- Steps 3-6 of `extractProductInfo(url)` from `src/database.js`, after the
page has been fetched and parsed into a `Doc`: try Open Graph, then JSON-LD,
then basic meta, defaulting to `{}`; throw when `!data.title && !data.price`;
delete the price when `data.price && isNaN(data.price)`; return the record.
(The fetch stage is modelled separately by `fetchUrl`; its errors propagate
unchanged through the orchestrator's rethrowing `catch`.) -/
def extractProductInfo (d : Doc) : Except String ExtractionResult :=
  let data0 := extractOpenGraph d
  let data1 := match data0 with
    | some x => some x
    | none => extractJsonLd d.jsonLdBlocks
  let data2 := match data1 with
    | some x => some x
    | none => extractBasicMeta d
  let data := data2.getD {}
  if !titleTruthy data && !priceTruthy data then
    .error extractionFailedMsg
  else
    .ok (if priceTruthy data && priceIsNaN data then { data with price := none } else data)

/-- The record chosen by the strategy cascade (the value of `data` after
steps 3-4 of `extractProductInfo`). -/
def chosenRecord (d : Doc) : ExtractionResult :=
  (match extractOpenGraph d with
   | some x => some x
   | none =>
     match extractJsonLd d.jsonLdBlocks with
     | some x => some x
     | none => extractBasicMeta d).getD {}

/-- Outcome of the single outbound `fetch` call: the in-flight request was
aborted by the timeout (the promise rejects with an `AbortError`), or a
response arrived with a status code and a body text. -/
inductive FetchOutcome where
  | aborted
  | response (status : Nat) (body : String)
deriving DecidableEq, Repr

/-- WHATWG `Response.ok`: status in the range 200-299. -/
def statusOk (status : Nat) : Bool :=
  200 ≤ status && status ≤ 299

def invalidUrlMsg : String := "Invalid URL format. Please enter a valid URL."

def timeoutMsg : String := "Request timed out. Website took too long to respond."

def upstreamMsg (status : Nat) : String :=
  "Website returned error: " ++ toString status

/-- `fetchUrl(url, timeout)` from `src/database.js`, over the outcome of the
network call: an invalid URL throws before any request; an aborted request is
caught as an `AbortError` and rethrown with the timeout message; a non-ok
response throws the upstream message with the status code; an ok response
returns the body markup. -/
def fetchUrl (urlValid : Bool) (outcome : FetchOutcome) : Except String String :=
  if !urlValid then .error invalidUrlMsg
  else
    match outcome with
    | .aborted => .error timeoutMsg
    | .response status body =>
      if statusOk status then .ok body else .error (upstreamMsg status)

/-- Concrete fixtures used across the theorems below. -/
def billyBlock : JsVal :=
  .obj (.cons "@type" (.str "Product") (.cons "name" (.str "BILLY")
    (.cons "offers" (.obj (.cons "price" (.str "399") .nil)) .nil)))

/-- The price-validation step of `extractProductInfo` can never drop the price:
its guard `data.price && isNaN(data.price)` requires the price to be truthy
(hence not `NaN`) and `NaN` at once. -/
theorem priceGuardFalse (r : ExtractionResult) :
    (priceTruthy r && priceIsNaN r) = false := by
  unfold priceTruthy priceIsNaN
  cases h : r.price with
  | none => rfl
  | some p => cases p <;> simp [JsNum.truthy, JsNum.isNaN]

/-- Steps 5-6 of the orchestrator, rephrased: a usable record is returned
unchanged, an unusable one raises the failure message. -/
theorem validateStep (r : ExtractionResult) :
    (if !titleTruthy r && !priceTruthy r then
       (.error extractionFailedMsg : Except String ExtractionResult)
     else .ok (if priceTruthy r && priceIsNaN r then { r with price := none } else r)) =
      if titleTruthy r || priceTruthy r then .ok r else .error extractionFailedMsg := by
  rw [priceGuardFalse]
  cases h1 : titleTruthy r <;> cases h2 : priceTruthy r <;> simp

/-- `extractProductInfo` validates exactly the record chosen by the cascade:
it succeeds with that record untouched when the record has a truthy title or
price, and fails with the extraction message otherwise. -/
theorem extractProductInfo_eq (d : Doc) :
    extractProductInfo d =
      if titleTruthy (chosenRecord d) || priceTruthy (chosenRecord d)
      then .ok (chosenRecord d)
      else .error extractionFailedMsg := by
  unfold extractProductInfo chosenRecord
  cases hog : extractOpenGraph d with
  | some r => simpa [hog] using validateStep r
  | none =>
    cases hld : extractJsonLd d.jsonLdBlocks with
    | some r => simpa [hog, hld] using validateStep r
    | none =>
      cases hbm : extractBasicMeta d with
      | some r => simpa [hog, hld, hbm] using validateStep r
      | none => simpa [hog, hld, hbm] using validateStep {}

def c1Doc : Doc := { ogTitle := some "Lamp", ogPrice := some "1 299,00" }

/-- C1 counterexample: with og:title "Lamp" and og:price "1 299,00" the code
returns price 1299/1000 (= 1.299), not 1299: the replacement turns the run
into "1.299.00" and `parseFloat` stops at the second dot, so the grouping
separator is not stripped. -/
theorem c1_counterexample :
    extractProductInfo c1Doc =
      .ok { title := some (.str "Lamp"), price := some (.num (1299/1000)) } ∧
    ((1299 : ℚ)/1000) ≠ 1299 := by
  constructor
  · decide
  · decide

/-- C1 (amended): for every fetched document whose Open Graph tags carry a
(non-blank) title and a price string containing a numeric run, the extraction
returns exactly the trimmed title, and a price obtained by replacing every
comma and whitespace character of the first run of digits, commas, dots and
whitespace with a dot and parsing the longest decimal prefix of the result;
a single decimal comma therefore parses correctly ("999,50" gives 999.5),
but a grouping separator is kept as a dot, so "1 299,00" gives 1.299. -/
theorem c1_theorem (d : Doc) (t p m : String)
    (ht : d.ogTitle = some t) (ht1 : t ≠ "") (htr : jsTrim t ≠ "")
    (hp : d.ogPrice = some p) (hp1 : p ≠ "")
    (hm : matchNumRun p = some m)
    (hd : d.ogDescription = none) (hi : d.ogImage = none) :
    extractProductInfo d =
      .ok { title := some (.str (jsTrim t)),
            price := some (parseFloat (replaceCommaSpaceWithDot m)) } := by
  have hog : extractOpenGraph d =
      some { title := some (.str (jsTrim t)),
             price := some (parseFloat (replaceCommaSpaceWithDot m)) } := by
    unfold extractOpenGraph
    rw [ht, hp, hd, hi]
    simp [truthyStrOpt, ht1, hp1, hm, hasAnyKey]
  have hch : chosenRecord d =
      { title := some (.str (jsTrim t)),
        price := some (parseFloat (replaceCommaSpaceWithDot m)) } := by
    unfold chosenRecord
    rw [hog]
    rfl
  rw [extractProductInfo_eq, hch]
  simp [titleTruthy, jsTruthy, htr]

def c1WitnessDoc : Doc := { ogTitle := some "Chair", ogPrice := some "999,50" }

/-- C1 witness: the amended theorem applied to a concrete document; the comma
of "999,50" acts as a decimal point, giving 999.5 = 1999/2. -/
theorem c1_witness :
    extractProductInfo c1WitnessDoc =
      .ok { title := some (.str "Chair"), price := some (.num (1999/2)) } := by
  have h := c1_theorem c1WitnessDoc "Chair" "999,50" "999,50"
    (by decide) (by decide) (by decide) (by decide) (by decide) (by decide)
    (by decide) (by decide)
  rw [h]
  decide

/-- C2 counterexample: a malformed first JSON-LD block makes the whole
JSON-LD strategy return null even though the following block is a well-formed
relevant Product block that, scanned alone, yields a full record: the
try/catch wraps the whole loop, so later blocks are not tried. -/
theorem c2_counterexample :
    extractJsonLd [none, some billyBlock] = none ∧
    extractJsonLd [some billyBlock] =
      some { title := some (.str "BILLY"), price := some (.num 399) } := by
  constructor
  · rfl
  · decide

/-- C2 (amended): a parse failure in any JSON-LD block aborts the whole
JSON-LD strategy, which returns null; only the surrounding extraction
survives: the orchestrator then behaves exactly as if the document carried no
JSON-LD blocks at all, falling through to the basic-meta strategy. -/
theorem c2_theorem (d : Doc) (rest : List (Option JsVal)) :
    extractJsonLd (none :: rest) = none ∧
    extractProductInfo { d with jsonLdBlocks := none :: rest } =
      extractProductInfo { d with jsonLdBlocks := [] } := by
  exact ⟨rfl, rfl⟩

def c3NegDoc : Doc :=
  { jsonLdBlocks := [some (.obj (.cons "@type" (.str "Product")
      (.cons "name" (.str "X")
        (.cons "offers" (.obj (.cons "price" (.str "-5") .nil)) .nil))))] }

def c3NanDoc : Doc := { ogTitle := some "X", ogPrice := some "," }

/-- C3 counterexample: a successful extraction can carry a negative price
(JSON-LD offer price "-5" is parsed and returned as -5) and can carry NaN
(og:price "," matches the run ",", which becomes "." and parses to NaN; the
guard `data.price && isNaN(data.price)` never fires because NaN is falsy). -/
theorem c3_counterexample :
    (extractProductInfo c3NegDoc =
        .ok { title := some (.str "X"), price := some (.num (-5)) } ∧
      (-5 : ℚ) < 0) ∧
    extractProductInfo c3NanDoc =
      .ok { title := some (.str "X"), price := some .nan } := by
  refine ⟨⟨?_, ?_⟩, ?_⟩
  · decide
  · decide
  · decide

/-- C3 (amended): a successful `extractProductInfo` returns the record chosen
by the strategy cascade completely unchanged (the price-dropping validation
is dead code, since its guard needs a price that is truthy and NaN at once),
so the price field, when present, is whatever the winning strategy parsed —
including 0, negative values, and NaN when a truthy title accompanies it; the
record always has a truthy title or a truthy price. -/
theorem c3_theorem (d : Doc) (r : ExtractionResult)
    (h : extractProductInfo d = .ok r) :
    r = chosenRecord d ∧ (titleTruthy r || priceTruthy r) = true := by
  rw [extractProductInfo_eq] at h
  by_cases hc : (titleTruthy (chosenRecord d) || priceTruthy (chosenRecord d)) = true
  · rw [if_pos hc] at h
    have hr : chosenRecord d = r := by
      injection h
    rw [← hr]
    exact ⟨rfl, hc⟩
  · rw [if_neg hc] at h
    cases h

def c3WitnessDoc : Doc := { ogTitle := some "Shelf" }

/-- C3 witness: the amended theorem applied to a concrete successful
extraction, whose returned record is exactly the cascade's chosen record. -/
theorem c3_witness :
    extractProductInfo c3WitnessDoc = .ok { title := some (.str "Shelf") } ∧
    ({ title := some (.str "Shelf") } : ExtractionResult) = chosenRecord c3WitnessDoc ∧
    (titleTruthy { title := some (.str "Shelf") } ||
      priceTruthy { title := some (.str "Shelf") }) = true := by
  refine ⟨by decide, ?_, ?_⟩
  · exact (c3_theorem c3WitnessDoc { title := some (.str "Shelf") } (by decide)).1
  · exact (c3_theorem c3WitnessDoc { title := some (.str "Shelf") } (by decide)).2

/-- Absence of every signal the extractor recognizes: no Open Graph meta
contents, no JSON-LD script blocks, no title meta tag, no `<title>` element,
no description meta tag. -/
def noSignals (d : Doc) : Prop :=
  d.ogTitle = none ∧ d.ogPrice = none ∧ d.ogDescription = none ∧ d.ogImage = none ∧
  d.jsonLdBlocks = [] ∧ d.metaTitle = none ∧ d.titleText = "" ∧ d.metaDescription = none

/-- C4: `extractProductInfo` fails with the message "Could not find product
information on this page." exactly when the record chosen by the strategy
cascade has neither a (truthy) title nor a (truthy) price; in particular a
document with none of the recognized signals fails that way. -/
theorem c4_theorem (d : Doc) :
    (extractProductInfo d = .error extractionFailedMsg ↔
      titleTruthy (chosenRecord d) = false ∧ priceTruthy (chosenRecord d) = false) ∧
    (noSignals d → extractProductInfo d = .error extractionFailedMsg) := by
  constructor
  · rw [extractProductInfo_eq]
    cases h1 : titleTruthy (chosenRecord d) <;>
      cases h2 : priceTruthy (chosenRecord d) <;> simp
  · rintro ⟨h1, h2, h3, h4, h5, h6, h7, h8⟩
    have hch : chosenRecord d = {} := by
      unfold chosenRecord extractOpenGraph extractBasicMeta basicTitleString
      rw [h1, h2, h3, h4, h5, h6, h7, h8]
      rfl
    rw [extractProductInfo_eq, hch]
    rfl

def c4WitnessDoc : Doc := {}

/-- C4 witness: the empty document has no recognized signal and extraction
fails with the extraction-failed message. -/
theorem c4_witness :
    noSignals c4WitnessDoc ∧
    extractProductInfo c4WitnessDoc = .error extractionFailedMsg := by
  refine ⟨⟨rfl, rfl, rfl, rfl, rfl, rfl, rfl, rfl⟩, ?_⟩
  exact (c4_theorem c4WitnessDoc).2 ⟨rfl, rfl, rfl, rfl, rfl, rfl, rfl, rfl⟩

/-- C5: the record a successful extraction validates is exactly the output of
the first strategy — Open Graph, then JSON-LD, then basic meta — that returned
a non-null record, taken wholesale; fields are never merged across
strategies. -/
theorem c5_theorem (d : Doc) (r : ExtractionResult)
    (h : extractProductInfo d = .ok r) :
    extractOpenGraph d = some r ∨
    (extractOpenGraph d = none ∧ extractJsonLd d.jsonLdBlocks = some r) ∨
    (extractOpenGraph d = none ∧ extractJsonLd d.jsonLdBlocks = none ∧
      extractBasicMeta d = some r) := by
  rw [extractProductInfo_eq] at h
  by_cases hc : (titleTruthy (chosenRecord d) || priceTruthy (chosenRecord d)) = true
  · rw [if_pos hc] at h
    have hr : chosenRecord d = r := by injection h
    unfold chosenRecord at hr hc
    cases hog : extractOpenGraph d with
    | some x =>
      simp only [hog, Option.getD_some] at hr
      exact Or.inl (by rw [hr])
    | none =>
      cases hld : extractJsonLd d.jsonLdBlocks with
      | some x =>
        simp only [hog, hld, Option.getD_some] at hr
        exact Or.inr (Or.inl ⟨rfl, by rw [hr]⟩)
      | none =>
        cases hbm : extractBasicMeta d with
        | some x =>
          simp only [hog, hld, hbm, Option.getD_some] at hr
          exact Or.inr (Or.inr ⟨rfl, rfl, by rw [hr]⟩)
        | none =>
          simp only [hog, hld, hbm, Option.getD_none] at hc
          exact absurd hc (by decide)
  · rw [if_neg hc] at h
    cases h

def c5Doc : Doc := { ogTitle := some "OnlyTitle", jsonLdBlocks := [some billyBlock] }

/-- C5 witness: a document where Open Graph supplies only a title while a
JSON-LD block supplies a title and a price; the result is the Open Graph
record alone — the JSON-LD price is not merged in. -/
theorem c5_witness :
    extractProductInfo c5Doc = .ok { title := some (.str "OnlyTitle") } ∧
    extractJsonLd c5Doc.jsonLdBlocks =
      some { title := some (.str "BILLY"), price := some (.num 399) } ∧
    (extractOpenGraph c5Doc = some { title := some (.str "OnlyTitle") } ∨
      (extractOpenGraph c5Doc = none ∧
        extractJsonLd c5Doc.jsonLdBlocks = some { title := some (.str "OnlyTitle") }) ∨
      (extractOpenGraph c5Doc = none ∧ extractJsonLd c5Doc.jsonLdBlocks = none ∧
        extractBasicMeta c5Doc = some { title := some (.str "OnlyTitle") })) := by
  refine ⟨by decide, by decide, ?_⟩
  exact c5_theorem c5Doc { title := some (.str "OnlyTitle") } (by decide)

def c6FallbackBlock : JsVal :=
  .obj (.cons "@type" (.str "Thing") (.cons "name" (.str "X")
    (.cons "image" (.str "img.jpg")
      (.cons "offers" (.obj (.cons "price" (.str "7") .nil)) .nil))))

/-- C6 counterexample: a block that is recognized only through its nested
`offers.price` (its type is not Product/Offer) has a truthy image, yet the
strategy's record carries no image key at all (and a present-but-undefined
description key): the literal in the fallback branch maps only name, price
and description, so the claimed general field mapping fails. -/
theorem c6_counterexample :
    extractJsonLd [some c6FallbackBlock] =
      some { title := some (.str "X"), price := some (.num 7),
             description := some .undefined, image := none } ∧
    jsTruthy (getField c6FallbackBlock "image") = true := by
  constructor
  · decide
  · decide

def billyDoc : Doc := { jsonLdBlocks := [some billyBlock] }

/-- Property access on a value that is neither `null` nor `undefined` never
throws: it returns the plain `getField` lookup. -/
theorem getFieldE_ok (v : JsVal) (k : String)
    (h1 : v ≠ .null) (h2 : v ≠ .undefined) :
    getFieldE v k = .ok (getField v k) := by
  cases v with
  | null => exact absurd rfl h1
  | undefined => exact absurd rfl h2
  | bool b => rfl
  | num q => rfl
  | str s => rfl
  | arr xs => rfl
  | obj fs => rfl

/-- C6 (amended): a document whose only structured data is the BILLY Product
block and which carries no Open Graph tags extracts to title "BILLY" and
price 399.  For any block whose declared type is Product or Offer, each
truthy field is mapped as claimed: name to title, description to
description, image to image (first entry when image is a list), and the
resolved offer's price — the first entry when offers is an array, offers
itself otherwise — numeric-parsed to price; except that when offers is an
empty (still truthy) array, reading price off the undefined first entry
throws and the whole strategy returns null.  Only the fallback branch for
blocks recognized through a nested offers.price drops the image (see the
counterexample). -/
theorem c6_theorem :
    extractProductInfo billyDoc =
      .ok { title := some (.str "BILLY"), price := some (.num 399) } ∧
    (∀ (j : JsVal) (ty : String) (nameV descV imgV offersV pV : JsVal),
      (ty = "Product" ∨ ty = "Offer") →
      j ≠ .null → j ≠ .undefined →
      getField j "@type" = .str ty →
      getField j "name" = nameV → jsTruthy nameV = true →
      getField j "description" = descV → jsTruthy descV = true →
      getField j "image" = imgV → jsTruthy imgV = true →
      getField j "offers" = offersV → jsTruthy offersV = true →
      firstIfArray offersV ≠ .null → firstIfArray offersV ≠ .undefined →
      getField (firstIfArray offersV) "price" = pV → jsTruthy pV = true →
      extractJsonLd [some j] =
        some { title := some nameV, price := some (parseFloatVal pV),
               description := some descV, image := some (firstIfArray imgV) }) ∧
    (∀ (j : JsVal) (ty : String),
      (ty = "Product" ∨ ty = "Offer") →
      j ≠ .null → j ≠ .undefined →
      getField j "@type" = .str ty →
      getField j "offers" = .arr .nil →
      extractJsonLd [some j] = none) := by
  refine ⟨by decide, ?_, ?_⟩
  · intro j ty nameV descV imgV offersV pV hty hn1 hn2 htype hname hnameT
      hdesc hdescT himg himgT hoff hoffT ho1 ho2 hp hpT
    have hE : ∀ k, getFieldE j k = .ok (getField j k) :=
      fun k => getFieldE_ok j k hn1 hn2
    have hE2 : ∀ k, getFieldE (firstIfArray offersV) k =
        .ok (getField (firstIfArray offersV) k) :=
      fun k => getFieldE_ok _ k ho1 ho2
    unfold extractJsonLd jsonLdLoop extractFromSchema
    rcases hty with rfl | rfl <;>
      simp [hE, hE2, htype, hname, hnameT, hdesc, hdescT, himg, himgT, hoff, hoffT,
        hp, hpT, hasAnyKey, Bind.bind, Except.bind, Pure.pure, Except.pure]
  · intro j ty hty hn1 hn2 htype hoffers
    have hE : ∀ k, getFieldE j k = .ok (getField j k) :=
      fun k => getFieldE_ok j k hn1 hn2
    unfold extractJsonLd jsonLdLoop extractFromSchema
    rcases hty with rfl | rfl <;>
      simp [hE, htype, hoffers, firstIfArray, getFieldE, jsTruthy,
        Bind.bind, Except.bind, Pure.pure, Except.pure]

def c6OfferBlock : JsVal :=
  .obj (.cons "@type" (.str "Offer") (.cons "name" (.str "Desk")
    (.cons "description" (.str "Oak desk")
      (.cons "image" (.str "a.png")
        (.cons "offers" (.obj (.cons "price" (.str "49.90") .nil)) .nil)))))

def c6ProductBlock : JsVal :=
  .obj (.cons "@type" (.str "Product") (.cons "name" (.str "Sofa")
    (.cons "description" (.str "Corner sofa")
      (.cons "image" (.arr (.cons (.str "s1.png") (.cons (.str "s2.png") .nil)))
        (.cons "offers" (.arr (.cons (.obj (.cons "price" (.str "399") .nil))
          (.cons (.obj (.cons "price" (.str "500") .nil)) .nil))) .nil)))))

def c6EmptyOffersBlock : JsVal :=
  .obj (.cons "@type" (.str "Product") (.cons "name" (.str "X")
    (.cons "offers" (.arr .nil) .nil)))

/-- C6 witness: the general mapping applied to an Offer-typed block with a
scalar image and a description, then to a Product-typed block with an image
list and an offers array (first entries taken), and the empty-offers
conjunct applied to a concrete Product block with offers `[]`. -/
theorem c6_witness :
    extractJsonLd [some c6OfferBlock] =
      some { title := some (.str "Desk"), price := some (parseFloat "49.90"),
             description := some (.str "Oak desk"), image := some (.str "a.png") } ∧
    extractJsonLd [some c6ProductBlock] =
      some { title := some (.str "Sofa"), price := some (parseFloat "399"),
             description := some (.str "Corner sofa"), image := some (.str "s1.png") } ∧
    extractJsonLd [some c6EmptyOffersBlock] = none := by
  refine ⟨?_, ?_, ?_⟩
  · exact c6_theorem.2.1 c6OfferBlock "Offer" (.str "Desk") (.str "Oak desk")
      (.str "a.png") (.obj (.cons "price" (.str "49.90") .nil)) (.str "49.90")
      (by decide) (by decide) (by decide) (by decide) (by decide) (by decide)
      (by decide) (by decide) (by decide) (by decide) (by decide) (by decide)
      (by decide) (by decide) (by decide) (by decide)
  · exact c6_theorem.2.1 c6ProductBlock "Product" (.str "Sofa") (.str "Corner sofa")
      (.arr (.cons (.str "s1.png") (.cons (.str "s2.png") .nil)))
      (.arr (.cons (.obj (.cons "price" (.str "399") .nil))
        (.cons (.obj (.cons "price" (.str "500") .nil)) .nil)))
      (.str "399")
      (by decide) (by decide) (by decide) (by decide) (by decide) (by decide)
      (by decide) (by decide) (by decide) (by decide) (by decide) (by decide)
      (by decide) (by decide) (by decide) (by decide)
  · exact c6_theorem.2.2 c6EmptyOffersBlock "Product" (by decide)
      (by decide) (by decide) (by decide) (by decide)

/-- C7: the basic-meta strategy takes as title the `meta[name=title]` content,
falling back to the `<title>` element text when that tag is absent or empty,
and as description the `meta[name=description]` content; it returns null
exactly when neither a (non-empty) title nor a description was found. -/
theorem c7_theorem (d : Doc) :
    (extractBasicMeta d = none ↔
      basicTitleString d = "" ∧ truthyStrOpt d.metaDescription = false) ∧
    (truthyStrOpt d.metaTitle = true → basicTitleString d = d.metaTitle.getD "") ∧
    (truthyStrOpt d.metaTitle = false → basicTitleString d = d.titleText) ∧
    (basicTitleString d ≠ "" → ∃ r, extractBasicMeta d = some r ∧
      r.title = some (.str (jsTrim (basicTitleString d)))) ∧
    (truthyStrOpt d.metaDescription = true → ∃ r, extractBasicMeta d = some r ∧
      r.description = some (.str (jsTrim (d.metaDescription.getD "")))) := by
  refine ⟨?_, ?_, ?_, ?_, ?_⟩
  · unfold extractBasicMeta
    by_cases h1 : basicTitleString d = "" <;>
      by_cases h2 : truthyStrOpt d.metaDescription = true <;>
        simp [h1, h2, hasAnyKey]
  · intro h
    unfold basicTitleString
    rw [h]
    rfl
  · intro h
    unfold basicTitleString
    rw [h]
    rfl
  · intro h
    unfold extractBasicMeta
    by_cases h2 : truthyStrOpt d.metaDescription = true <;>
      simp [h, h2, hasAnyKey]
  · intro h2
    unfold extractBasicMeta
    by_cases h1 : basicTitleString d = "" <;>
      simp [h1, h2, hasAnyKey]

def c7Doc : Doc :=
  { titleText := "Example Product – Shop", metaDescription := some "Great value desk" }

/-- C7 witness: a document with only a `<title>` element and a description
meta tag extracts to exactly that title and description; the fallback and
title-shape conjuncts of the theorem applied concretely. -/
theorem c7_witness :
    extractProductInfo c7Doc =
      .ok { title := some (.str "Example Product – Shop"),
            description := some (.str "Great value desk") } ∧
    basicTitleString c7Doc = "Example Product – Shop" ∧
    (∃ r, extractBasicMeta c7Doc = some r ∧
      r.title = some (.str (jsTrim (basicTitleString c7Doc)))) ∧
    (∃ r, extractBasicMeta c7Doc = some r ∧
      r.description = some (.str (jsTrim (c7Doc.metaDescription.getD "")))) := by
  refine ⟨by decide, ?_, ?_, ?_⟩
  · exact (c7_theorem c7Doc).2.2.1 (by decide)
  · exact (c7_theorem c7Doc).2.2.2.1 (by decide)
  · exact (c7_theorem c7Doc).2.2.2.2 (by decide)

/-- C8: a response with a non-success status surfaces as an error whose
message carries the status code, an aborted (timed-out) request surfaces as
the timeout error, and in neither case is markup returned to the caller. -/
theorem c8_theorem (status : Nat) (body : String) (h : statusOk status = false) :
    fetchUrl true (.response status body) =
      .error ("Website returned error: " ++ toString status) ∧
    fetchUrl true .aborted = .error timeoutMsg ∧
    (∀ markup : String, fetchUrl true (.response status body) ≠ .ok markup) ∧
    (∀ markup : String, fetchUrl true .aborted ≠ .ok markup) := by
  refine ⟨?_, rfl, ?_, ?_⟩
  · simp [fetchUrl, h, upstreamMsg]
  · intro markup
    simp [fetchUrl, h, upstreamMsg]
  · intro markup
    simp [fetchUrl]

/-- C8 witness: the theorem applied at status 404. -/
theorem c8_witness :
    statusOk 404 = false ∧
    fetchUrl true (.response 404 "<html></html>") =
      .error ("Website returned error: " ++ toString 404) ∧
    fetchUrl true .aborted = .error timeoutMsg := by
  refine ⟨by decide, ?_, ?_⟩
  · exact (c8_theorem 404 "<html></html>" (by decide)).1
  · exact (c8_theorem 404 "<html></html>" (by decide)).2.1

/-- C9: when the Open Graph strategy returns a record holding only an image,
the cascade short-circuits on it and the whole extraction fails with the
extraction-failed message, whatever the document's JSON-LD blocks or basic
meta tags contain. -/
theorem c9_theorem (d : Doc) (v : JsVal)
    (h : extractOpenGraph d = some { image := some v }) :
    extractProductInfo d = .error extractionFailedMsg := by
  have hch : chosenRecord d = { image := some v } := by
    unfold chosenRecord
    rw [h]
    rfl
  rw [extractProductInfo_eq, hch]
  rfl

def c9Doc : Doc := { ogImage := some "pic.png", jsonLdBlocks := [some billyBlock] }

/-- C9 witness: a document with only an og:image among the Open Graph tags
and a JSON-LD Product block carrying a title and a price still fails. -/
theorem c9_witness :
    extractOpenGraph c9Doc = some { image := some (.str "pic.png") } ∧
    extractJsonLd c9Doc.jsonLdBlocks =
      some { title := some (.str "BILLY"), price := some (.num 399) } ∧
    extractProductInfo c9Doc = .error extractionFailedMsg := by
  refine ⟨by decide, by decide, ?_⟩
  exact c9_theorem c9Doc (.str "pic.png") (by decide)

/-- C10: in the usability check a price equal to 0 counts as absent — a
chosen record with no truthy title and price 0 makes the extraction fail with
the extraction-failed message. -/
theorem c10_theorem (d : Doc)
    (h1 : titleTruthy (chosenRecord d) = false)
    (h2 : (chosenRecord d).price = some (.num 0)) :
    extractProductInfo d = .error extractionFailedMsg := by
  have hp : priceTruthy (chosenRecord d) = false := by
    unfold priceTruthy
    rw [h2]
    simp [JsNum.truthy]
  rw [extractProductInfo_eq, h1, hp]
  rfl

def c10Doc : Doc := { ogPrice := some "0" }

/-- C10 witness: a document whose only signal is og:price "0" fails. -/
theorem c10_witness :
    chosenRecord c10Doc = { price := some (.num 0) } ∧
    extractProductInfo c10Doc = .error extractionFailedMsg := by
  refine ⟨by decide, ?_⟩
  exact c10_theorem c10Doc (by decide) (by decide)
